import Mathlib

/-!
# Verification of the creative-automation pipeline

Shallow embedding of the pure computational core of the pipeline:

* `src/constants.py` — `AspectRatios` tables and lookup helpers;
* `src/compliance_checker.py` — `check_legal_content`, `check_text_contrast`,
  and the aggregation in `run_full_compliance_check`;
* `src/creative_composer.py` — `resize_for_ratio` geometry, the word-wrap and
  panel placement inside `add_text_overlay`, `add_logo_overlay`, and
  `create_variations` path construction.

Image I/O, logging and the pixel-statistics heuristics (`check_logo_presence`,
`validate_brand_colors`) are not modelled; where a function consumes their
results, the verdicts are passed in as parameters of type `Option Bool`
(Python's `None`/`True`/`False`).  Python `int` arithmetic is modelled with
`Nat`/`Int` (`//` is `Int.fdiv`, `int()` of a positive float is a floor);
float expressions are modelled with exact rational arithmetic, and the WCAG
luminance formula (which uses `** 2.4`) with real arithmetic.
-/

namespace CreativePipeline

/-! ## Python string primitives -/

/-- Python's `needle in hay` substring test, on character lists. -/
def containsSub (needle : List Char) : List Char → Bool
  | [] => needle.isEmpty
  | c :: rest => needle.isPrefixOf (c :: rest) || containsSub needle rest

/-- Python's `needle in hay` on strings. -/
def py_in (needle hay : String) : Bool :=
  containsSub needle.data hay.data

/-- Python's `' '.join(words)`. -/
def joinSp : List String → String
  | [] => ""
  | [w] => w
  | w :: rest => w ++ " " ++ joinSp rest

/-- Helper for `pySplit`: accumulates the current word (reversed) while
scanning the character list. -/
def splitWsAux : List Char → List Char → List String
  | cur, [] => if cur.isEmpty then [] else [String.mk cur.reverse]
  | cur, c :: rest =>
      if c.isWhitespace then
        if cur.isEmpty then splitWsAux [] rest
        else String.mk cur.reverse :: splitWsAux [] rest
      else splitWsAux (c :: cur) rest

/-- Python's `text.split()`: split on whitespace runs, dropping empty pieces. -/
def pySplit (s : String) : List String :=
  splitWsAux [] s.data

/-- Python's `text.lower()` (ASCII range, which covers the prohibited list). -/
def pyLower (s : String) : String :=
  String.mk (s.data.map Char.toLower)

/-! ## `src/constants.py` — `AspectRatios` -/

/-- `AspectRatios.OUTPUT_DIMENSIONS` (constants.py, lines 29–35). -/
def OUTPUT_DIMENSIONS : List (String × (Nat × Nat)) :=
  [("1x1", (1080, 1080)),
   ("9x16", (1080, 1920)),
   ("16x9", (1920, 1080)),
   ("4x5", (1080, 1350)),
   ("2x3", (1080, 1620))]

/-- `AspectRatios.GENERATION_DIMENSIONS` (constants.py, lines 38–44). -/
def GENERATION_DIMENSIONS : List (String × (Nat × Nat)) :=
  [("1x1", (1024, 1024)),
   ("9x16", (1080, 1920)),
   ("16x9", (1920, 1080)),
   ("4x3", (1024, 768)),
   ("3x4", (768, 1024))]

/-- `AspectRatios.FLUX_FORMATS` (constants.py, lines 47–53). -/
def FLUX_FORMATS : List (String × String) :=
  [("1x1", "square"),
   ("9x16", "portrait_16_9"),
   ("16x9", "landscape_16_9"),
   ("4x3", "landscape_4_3"),
   ("3x4", "portrait_3_4")]

/-- `AspectRatios.get_output_size`: `OUTPUT_DIMENSIONS.get(name, (1080, 1080))`. -/
def get_output_size (format_name : String) : Nat × Nat :=
  (OUTPUT_DIMENSIONS.lookup format_name).getD (1080, 1080)

/-- `AspectRatios.get_generation_size`: `GENERATION_DIMENSIONS.get(name, (1920, 1080))`. -/
def get_generation_size (format_name : String) : Nat × Nat :=
  (GENERATION_DIMENSIONS.lookup format_name).getD (1920, 1080)

/-- `AspectRatios.get_flux_format`: `FLUX_FORMATS.get(name, "landscape_16_9")`. -/
def get_flux_format (format_name : String) : String :=
  (FLUX_FORMATS.lookup format_name).getD "landscape_16_9"

/-- `AspectRatios.all_formats`: `list(OUTPUT_DIMENSIONS.keys())`. -/
def all_formats : List String :=
  OUTPUT_DIMENSIONS.map Prod.fst

/-! ## `src/compliance_checker.py` — legal-content check -/

/-- `ComplianceChecker.PROHIBITED_WORDS` (compliance_checker.py, lines 20–25),
in source order.  Note the mixed-case entry `"FDA approved"`. -/
def PROHIBITED_WORDS : List String :=
  ["free", "guarantee", "guaranteed", "miracle", "cure", "cures",
   "certified", "approved", "winner", "best", "number one", "#1",
   "risk-free", "no risk", "proven", "scientific breakthrough",
   "secret", "banned", "illegal", "FDA approved"]

structure Violation where
  term : String
  reason : String
  severity : String
deriving DecidableEq

structure LegalResult where
  compliant : Bool
  violations : List Violation
  text_checked : String
deriving DecidableEq

/-- `ComplianceChecker.check_legal_content` (compliance_checker.py, lines 37–73):
lowercases the message, then tests `word in text_lower` for each prohibited
word in list order (the words themselves are *not* lowercased). -/
def check_legal_content (text : String) : LegalResult :=
  let text_lower := pyLower text
  let violations :=
    (PROHIBITED_WORDS.filter (fun w => py_in w text_lower)).map
      (fun w => { term := w, reason := "Prohibited marketing claim", severity := "high" })
  { compliant := violations.length == 0
    violations := violations
    text_checked := text }

/-! ## `run_full_compliance_check` aggregation -/

structure ComplianceReport where
  legal_content : LegalResult
  logo_presence : Option Bool
  brand_colors : Option Bool
  overall_compliant : Bool
deriving DecidableEq

/-- `ComplianceChecker.run_full_compliance_check` (compliance_checker.py,
lines 261–302).  The image-statistics checks `check_logo_presence` and
`validate_brand_colors` perform file I/O; their verdicts — the `"detected"`
resp. `"compliant"` fields, each `None`/`True`/`False` in Python — enter here
as `Option Bool` parameters.  The aggregation is
`legal_ok and (logo_ok is not False) and (colors_ok is not False)`. -/
def run_full_compliance_check (campaign_message : String)
    (logoDetected brandColorsOk : Option Bool) : ComplianceReport :=
  let legal := check_legal_content campaign_message
  { legal_content := legal
    logo_presence := logoDetected
    brand_colors := brandColorsOk
    overall_compliant :=
      legal.compliant && !(logoDetected == some false) && !(brandColorsOk == some false) }

/-! ## `src/creative_composer.py` — `resize_for_ratio` geometry

An image enters the geometry as its `(width, height)` pair.  Python's float
`scale = target / current` followed by `int(dim * scale)` is modelled by exact
rational arithmetic, i.e. floor division on `Nat`; the branch test
`current_ratio > target_ratio` becomes the cross-multiplied `w * th > tw * h`. -/

/-- The `(new_width, new_height)` passed to `image.resize` in
`resize_for_ratio` (creative_composer.py, lines 148–161). -/
def scaled_size (w h : Nat) (ratioName : String) : Nat × Nat :=
  let tw := (get_output_size ratioName).1
  let th := (get_output_size ratioName).2
  if w * th > tw * h then
    (w * th / h, th)
  else
    (tw, h * tw / w)

/-- `resize_for_ratio` final dimensions: the center crop box is
`(left, top, left + target_width, top + target_height)` and PIL's `crop`
returns an image of exactly the box size (creative_composer.py, lines
163–171).  `//` on possibly-negative ints is Python floor division, `Int.fdiv`. -/
def resize_for_ratio (w h : Nat) (ratioName : String) : Nat × Nat :=
  let tw := (get_output_size ratioName).1
  let th := (get_output_size ratioName).2
  let nw := (scaled_size w h ratioName).1
  let nh := (scaled_size w h ratioName).2
  let left := Int.fdiv ((nw : Int) - tw) 2
  let top := Int.fdiv ((nh : Int) - th) 2
  (((left + tw) - left).toNat, ((top + th) - top).toNat)

/-! ## `create_variations` output paths -/

/-- The path `product_folder / f"{ratio}.png"` with
`product_folder = output_folder / product_id` (creative_composer.py,
lines 98–120). -/
def variation_path (output_folder product_id ratioName : String) : String :=
  output_folder ++ "/" ++ product_id ++ "/" ++ ratioName ++ ".png"

/-- The `for ratio in ratios` loop of `create_variations`, accumulating
`generated_paths` by appending (creative_composer.py, lines 102–125). -/
def variations_go (output_folder product_id : String)
    (acc : List String) : List String → List String
  | [] => acc
  | r :: rest => variations_go output_folder product_id (acc ++ [variation_path output_folder product_id r]) rest

/-- `create_variations` (creative_composer.py, lines 66–131), reduced to the
paths it returns: `ratios = None` defaults to `AspectRatios.all_formats()`. -/
def create_variations (output_folder product_id : String)
    (ratios : Option (List String)) : List String :=
  variations_go output_folder product_id [] (ratios.getD all_formats)

/-- The wrap guarantee for a single produced line: either its rendered width
is within the limit, or it is a lone word that is itself wider than the
limit. -/
def goodLine (width : String → Nat) (maxTextWidth : Nat) (l : List String) : Prop :=
  width (joinSp l) ≤ maxTextWidth ∨ ∃ w, l = [w] ∧ maxTextWidth < width w

/-! ## `add_text_overlay` — word wrap and panel placement

The rendered pixel width of a candidate line (`draw.textbbox(...)`,
`bbox[2] - bbox[0]`) depends on the loaded font; it enters the model as an
arbitrary measuring function `width : String → Nat`. -/

/-- One iteration of the `for word in words` wrap loop
(creative_composer.py, lines 226–239).  State is `(lines, current_line)`. -/
def wrap_step (width : String → Nat) (maxTextWidth : Nat)
    (st : List (List String) × List String) (word : String) :
    List (List String) × List String :=
  if width (joinSp (st.2 ++ [word])) ≤ maxTextWidth then
    (st.1, st.2 ++ [word])
  else
    match st.2 with
    | [] => (st.1 ++ [[word]], [])
    | _ :: _ => (st.1 ++ [st.2], [word])

/-- The whole word-wrap of `add_text_overlay` (creative_composer.py, lines
221–242), producing the lines as word lists (the code stores
`' '.join(current_line)`; we keep the word structure and join on demand). -/
def wrap_lines (width : String → Nat) (maxTextWidth : Nat)
    (words : List String) : List (List String) :=
  let st := words.foldl (wrap_step width maxTextWidth) ([], [])
  match st.2 with
  | [] => st.1
  | _ :: _ => st.1 ++ [st.2]

/-- `font_size = int(min_dimension * 0.08)` (creative_composer.py, line 201). -/
def font_size_of (w h : Nat) : Nat :=
  min w h * 8 / 100

/-- `max_text_width = int(image.width * 0.85)` (creative_composer.py, line 198). -/
def max_text_width (w : Nat) : Nat :=
  w * 85 / 100

/-- `line_height = int(font_size * 1.3)` (creative_composer.py, line 245). -/
def line_height_of (fontSize : Nat) : Nat :=
  fontSize * 13 / 10

/-- `max_line_width` fold (creative_composer.py, lines 249–253). -/
def max_line_width (width : String → Nat) (lines : List (List String)) : Nat :=
  lines.foldl (fun m l => max m (width (joinSp l))) 0

/-- Background panel size: `bg_width = max_line_width + 2*30`,
`bg_height = len(lines)*line_height + 2*25` (creative_composer.py,
lines 244–259). -/
def bg_size (width : String → Nat) (w h : Nat) (text : String) : Nat × Nat :=
  let lines := wrap_lines width (max_text_width w) (pySplit text)
  (max_line_width width lines + 30 * 2,
   lines.length * line_height_of (font_size_of w h) + 25 * 2)

/-- Panel top-left corner after position selection and the final clamp
`x = max(20, min(x, W - bg_width - 20))`, `y = max(20, min(y, H - bg_height - 20))`
(creative_composer.py, lines 261–282).  The portrait test
`aspect_ratio < 0.7` is cross-multiplied to `10*W < 7*H`. -/
def overlay_xy (w h bgW bgH : Nat) (position : String) : Int × Int :=
  let x0 : Int := Int.fdiv ((w : Int) - bgW) 2
  let y0 : Int :=
    if position = "bottom" then
      let bottomMargin : Int := if 10 * w < 7 * h then Int.fdiv ((h : Int) * 5) 100 else 50
      (h : Int) - bgH - bottomMargin
    else if position = "top" then 50
    else Int.fdiv ((h : Int) - bgH) 2
  (max 20 (min x0 ((w : Int) - bgW - 20)),
   max 20 (min y0 ((h : Int) - bgH - 20)))

/-- The background panel rectangle drawn by `add_text_overlay`:
`(x, y, bg_width, bg_height)` for an image of size `w × h`. -/
def add_text_overlay_box (width : String → Nat) (w h : Nat)
    (text : String) (position : String) : (Int × Int) × (Nat × Nat) :=
  let bg := bg_size width w h text
  (overlay_xy w h bg.1 bg.2 position, bg)

/-! ## `check_text_contrast` — WCAG luminance and contrast over ℝ -/

/-- One channel of the sRGB linearization inside `luminance`
(compliance_checker.py, lines 229–237). -/
noncomputable def srgb_channel (c : ℝ) : ℝ :=
  if c ≤ 0.03928 then c / 12.92 else ((c + 0.055) / 1.055) ^ (2.4 : ℝ)

/-- `luminance(color)` for an 8-bit RGB triple (compliance_checker.py,
lines 229–237). -/
noncomputable def luminance (color : Nat × Nat × Nat) : ℝ :=
  0.2126 * srgb_channel ((color.1 : ℝ) / 255)
    + 0.7152 * srgb_channel ((color.2.1 : ℝ) / 255)
    + 0.0722 * srgb_channel ((color.2.2 : ℝ) / 255)

/-- The (un-rounded) contrast ratio computed by `check_text_contrast`
(compliance_checker.py, lines 239–245). -/
noncomputable def contrast_ratio (a b : Nat × Nat × Nat) : ℝ :=
  if luminance a > luminance b then
    (luminance a + 0.05) / (luminance b + 0.05)
  else
    (luminance b + 0.05) / (luminance a + 0.05)

/-- The `passes_aa` field of the result (compliance_checker.py, line 249). -/
def passes_aa (a b : Nat × Nat × Nat) : Prop :=
  contrast_ratio a b ≥ 4.5

/-- The `passes_aaa` field of the result (compliance_checker.py, line 250). -/
def passes_aaa (a b : Nat × Nat × Nat) : Prop :=
  contrast_ratio a b ≥ 7.0

/-! ## `add_logo_overlay` -/

/-- RGBA pixel with 8-bit channels. -/
abbrev RGBA := Nat × Nat × Nat × Nat

structure PILImage where
  width : Nat
  height : Nat
  px : List (List RGBA)
deriving DecidableEq

/-- `image.copy()`: in the value model a copy is the same pixel data. -/
def copy_image (img : PILImage) : PILImage := img

/-- Alpha blend of one pasted pixel (PIL `paste` with an RGBA mask). -/
def blend (base logo : RGBA) : RGBA :=
  let a := logo.2.2.2
  ((logo.1 * a + base.1 * (255 - a)) / 255,
   (logo.2.1 * a + base.2.1 * (255 - a)) / 255,
   (logo.2.2.1 * a + base.2.2.1 * (255 - a)) / 255,
   base.2.2.2)

/-- `img_with_logo.paste(logo, (x, y), logo)`: blend the logo over the base
inside the paste box, leave everything else untouched. -/
def paste_logo (base logo : PILImage) (x y : Int) : PILImage :=
  { base with
    px := base.px.mapIdx (fun j row =>
      row.mapIdx (fun i p =>
        if y ≤ (j : Int) ∧ (j : Int) < y + logo.height
            ∧ x ≤ (i : Int) ∧ (i : Int) < x + logo.width then
          blend p ((logo.px.getD ((j : Int) - y).toNat []).getD ((i : Int) - x).toNat (0, 0, 0, 0))
        else p)) }

/-- `CreativeComposer.add_logo_overlay` (creative_composer.py, lines 333–374).
`logo` is `self.logo`: `none` when `_load_logo` found no path, a missing file,
or a load error.  Python mutates buffers in place, so the embedding returns a
pair `(returned image, buffer of the input argument after the call)`; the code
pastes onto `image.copy()`, never onto `image` itself. -/
def add_logo_overlay (logo : Option PILImage) (image : PILImage)
    (position : String) : PILImage × PILImage :=
  match logo with
  | none => (image, image)
  | some lg =>
    let img_with_logo := copy_image image
    let padding : Int := 30
    let xy : Int × Int :=
      if position = "top-right" then
        ((image.width : Int) - lg.width - padding, padding)
      else if position = "top-left" then
        (padding, padding)
      else if position = "bottom-right" then
        ((image.width : Int) - lg.width - padding, (image.height : Int) - lg.height - padding)
      else
        (padding, (image.height : Int) - lg.height - padding)
    (paste_logo img_with_logo lg xy.1 xy.2, image)

/-! # Theorems -/

/-! ## Helper lemmas -/

theorem variations_go_eq (o p : String) (acc : List String) (rs : List String) :
    variations_go o p acc rs = acc ++ rs.map (variation_path o p) := by
  induction rs generalizing acc with
  | nil => simp [variations_go]
  | cons r rest ih => simp [variations_go, ih]

theorem get_output_size_pos (r : String) :
    0 < (get_output_size r).1 ∧ 0 < (get_output_size r).2 := by
  unfold get_output_size OUTPUT_DIMENSIONS
  simp only [List.lookup]
  repeat' split
  all_goals decide

/-! ## Claim theorems -/

/-- C1: for every campaign message and every pair of sub-check verdicts, the
report of `run_full_compliance_check` satisfies
`overall_compliant = legal_ok AND (logo ≠ false) AND (colors ≠ false)`;
an inconclusive (`none`) verdict behaves exactly like a passing one, and
`overall_compliant = false` only when some sub-check produced a definitive
non-null negative. -/
theorem run_full_compliance_check_overall (msg : String) (logo colors : Option Bool) :
    ((run_full_compliance_check msg logo colors).overall_compliant
        = ((check_legal_content msg).compliant
            && !(logo == some false) && !(colors == some false)))
    ∧ ((run_full_compliance_check msg none colors).overall_compliant
        = (run_full_compliance_check msg (some true) colors).overall_compliant)
    ∧ ((run_full_compliance_check msg logo none).overall_compliant
        = (run_full_compliance_check msg logo (some true)).overall_compliant)
    ∧ ((run_full_compliance_check msg logo colors).overall_compliant = false →
        (check_legal_content msg).compliant = false
          ∨ logo = some false ∨ colors = some false) := by
  refine ⟨rfl, rfl, rfl, ?_⟩
  intro hfalse
  cases hL : (check_legal_content msg).compliant with
  | false => exact Or.inl rfl
  | true =>
    rcases logo with _ | b1
    · rcases colors with _ | b2
      · simp [run_full_compliance_check, hL] at hfalse
      · cases b2
        · exact Or.inr (Or.inr rfl)
        · simp [run_full_compliance_check, hL] at hfalse
    · cases b1
      · exact Or.inr (Or.inl rfl)
      · rcases colors with _ | b2
        · simp [run_full_compliance_check, hL] at hfalse
        · cases b2
          · exact Or.inr (Or.inr rfl)
          · simp [run_full_compliance_check, hL] at hfalse

/-- Witness for C1 at a concrete failing input: the message `"free stuff"`
fails the legal check, so the aggregate is false and the theorem pinpoints a
definitive negative. -/
theorem run_full_compliance_check_overall_witness :
    (check_legal_content "free stuff").compliant = false
      ∨ (some true : Option Bool) = some false
      ∨ (none : Option Bool) = some false :=
  (run_full_compliance_check_overall "free stuff" (some true) none).2.2.2 (by decide)

/-- C3 (code bug): the prohibited list contains the mixed-case entry
`"FDA approved"`, but `check_legal_content` compares each list entry verbatim
against the *lowercased* message, so that entry can never match.  On the
message `"FDA approved"` itself — which contains the term, case-insensitively
— the violations list names only `"approved"`, not `"FDA approved"`; the
message is still non-compliant, but the reported set of matched terms is not
the case-insensitive match set the spec describes. -/
theorem check_legal_content_fda_entry_dead :
    "FDA approved" ∈ PROHIBITED_WORDS
    ∧ py_in (pyLower "FDA approved") (pyLower "FDA approved") = true
    ∧ ((check_legal_content "FDA approved").violations.map Violation.term) = ["approved"]
    ∧ (check_legal_content "FDA approved").compliant = false := by
  decide

/-- C4 counterexample: for a ratio name absent from every table, the provider
format fallback is the string `"landscape_16_9"`, not `"landscape"` as the
claim states. -/
theorem get_flux_format_default_counterexample :
    FLUX_FORMATS.lookup "7x7" = none ∧ get_flux_format "7x7" ≠ "landscape" := by
  decide

/-- C4 (amended): a ratio name absent from a policy table makes the
corresponding lookup return its documented default — output `(1080, 1080)`,
generation `(1920, 1080)`, provider format `"landscape_16_9"` — without
error; a name present in a table returns its table entry; and each table maps
every name to at most one spec (its keys are duplicate-free). -/
theorem aspect_ratio_lookup_spec (name : String) :
    (OUTPUT_DIMENSIONS.lookup name = none → get_output_size name = (1080, 1080))
    ∧ (GENERATION_DIMENSIONS.lookup name = none → get_generation_size name = (1920, 1080))
    ∧ (FLUX_FORMATS.lookup name = none → get_flux_format name = "landscape_16_9")
    ∧ (∀ v, OUTPUT_DIMENSIONS.lookup name = some v → get_output_size name = v)
    ∧ (∀ v, GENERATION_DIMENSIONS.lookup name = some v → get_generation_size name = v)
    ∧ (∀ v, FLUX_FORMATS.lookup name = some v → get_flux_format name = v)
    ∧ (OUTPUT_DIMENSIONS.map Prod.fst).Nodup
    ∧ (GENERATION_DIMENSIONS.map Prod.fst).Nodup
    ∧ (FLUX_FORMATS.map Prod.fst).Nodup := by
  refine ⟨?_, ?_, ?_, ?_, ?_, ?_, by decide, by decide, by decide⟩
  · intro hn; simp [get_output_size, hn]
  · intro hn; simp [get_generation_size, hn]
  · intro hn; simp [get_flux_format, hn]
  · intro v hv; simp [get_output_size, hv]
  · intro v hv; simp [get_generation_size, hv]
  · intro v hv; simp [get_flux_format, hv]

/-- Witness for C4 (amended) at the unknown name `"7x7"` and the known name
`"4x5"`. -/
theorem aspect_ratio_lookup_spec_witness :
    get_output_size "7x7" = (1080, 1080)
    ∧ get_generation_size "7x7" = (1920, 1080)
    ∧ get_flux_format "7x7" = "landscape_16_9"
    ∧ get_output_size "4x5" = (1080, 1350) :=
  ⟨(aspect_ratio_lookup_spec "7x7").1 (by decide),
   (aspect_ratio_lookup_spec "7x7").2.1 (by decide),
   (aspect_ratio_lookup_spec "7x7").2.2.1 (by decide),
   (aspect_ratio_lookup_spec "4x5").2.2.2.1 (1080, 1350) (by decide)⟩

/-- C5: `create_variations` returns one path per requested ratio, in the
caller-supplied order, each equal to `outputRoot/productId/<ratioName>.png`;
the ratios `["1x1", "16x9"]` yield exactly those two paths in that order; and
when the ratios argument is omitted (`none`) the default is the full list of
known ratio names of the output policy table. -/
theorem create_variations_paths (output_folder product_id : String) (rs : List String) :
    create_variations output_folder product_id (some rs)
        = rs.map (variation_path output_folder product_id)
    ∧ (create_variations output_folder product_id (some rs)).length = rs.length
    ∧ create_variations output_folder product_id none
        = all_formats.map (variation_path output_folder product_id)
    ∧ all_formats = ["1x1", "9x16", "16x9", "4x5", "2x3"]
    ∧ create_variations output_folder product_id (some ["1x1", "16x9"])
        = [output_folder ++ "/" ++ product_id ++ "/" ++ "1x1" ++ ".png",
           output_folder ++ "/" ++ product_id ++ "/" ++ "16x9" ++ ".png"] := by
  have hsome : create_variations output_folder product_id (some rs)
      = rs.map (variation_path output_folder product_id) := by
    simpa using variations_go_eq output_folder product_id [] rs
  refine ⟨hsome, by rw [hsome, List.length_map], ?_, by decide, ?_⟩
  · simpa using variations_go_eq output_folder product_id [] all_formats
  · simpa [variation_path] using
      variations_go_eq output_folder product_id [] ["1x1", "16x9"]

theorem scaled_size_covers (w h : Nat) (r : String) (hw : 0 < w) (hh : 0 < h) :
    (get_output_size r).1 ≤ (scaled_size w h r).1
    ∧ (get_output_size r).2 ≤ (scaled_size w h r).2 := by
  simp only [scaled_size]
  split
  · next hgt =>
      refine ⟨?_, le_refl _⟩
      dsimp only
      rw [Nat.le_div_iff_mul_le hh]
      exact le_of_lt hgt
  · next hle =>
      refine ⟨le_refl _, ?_⟩
      dsimp only
      rw [Nat.le_div_iff_mul_le hw]
      have hle' : w * (get_output_size r).2 ≤ (get_output_size r).1 * h := not_lt.mp hle
      calc (get_output_size r).2 * w = w * (get_output_size r).2 := Nat.mul_comm _ _
        _ ≤ (get_output_size r).1 * h := hle'
        _ = h * (get_output_size r).1 := Nat.mul_comm _ _

theorem scaled_size_uniform (w h : Nat) (r : String) (hw : 0 < w) (hh : 0 < h) :
    ∃ s : ℚ, 0 < s
      ∧ (scaled_size w h r).1 = ⌊(w : ℚ) * s⌋₊
      ∧ (scaled_size w h r).2 = ⌊(h : ℚ) * s⌋₊ := by
  obtain ⟨htw, hth⟩ := get_output_size_pos r
  have hhq : ((h : ℚ)) ≠ 0 := by positivity
  have hwq : ((w : ℚ)) ≠ 0 := by positivity
  simp only [scaled_size]
  split
  · refine ⟨((get_output_size r).2 : ℚ) / (h : ℚ), ?_, ?_, ?_⟩
    · have h1 : (0 : ℚ) < ((get_output_size r).2 : ℚ) := by exact_mod_cast hth
      have h2 : (0 : ℚ) < ((h : ℚ)) := by exact_mod_cast hh
      exact div_pos h1 h2
    · dsimp only
      rw [← mul_div_assoc, ← Nat.cast_mul, Nat.floor_div_nat, Nat.floor_natCast]
    · dsimp only
      rw [mul_comm, div_mul_cancel₀ _ hhq, Nat.floor_natCast]
  · refine ⟨((get_output_size r).1 : ℚ) / (w : ℚ), ?_, ?_, ?_⟩
    · have h1 : (0 : ℚ) < ((get_output_size r).1 : ℚ) := by exact_mod_cast htw
      have h2 : (0 : ℚ) < ((w : ℚ)) := by exact_mod_cast hw
      exact div_pos h1 h2
    · dsimp only
      rw [mul_comm, div_mul_cancel₀ _ hwq, Nat.floor_natCast]
    · dsimp only
      rw [← mul_div_assoc, ← Nat.cast_mul, Nat.floor_div_nat, Nat.floor_natCast]

/-- C2: for every positive source size and every ratio name,
`resize_for_ratio` produces an image of exactly the output-policy dimensions
for that name; the scaled image covers the crop box (both scaled dimensions
are at least the target ones), and the scaling step applies one uniform scale
factor to both dimensions (floor-rounded), so the source aspect ratio is
preserved before the center crop.  Determinism is inherent: the geometry is a
pure function of `(w, h, ratioName)`. -/
theorem resize_for_ratio_spec (w h : Nat) (ratioName : String)
    (hw : 0 < w) (hh : 0 < h) :
    resize_for_ratio w h ratioName = get_output_size ratioName
    ∧ (get_output_size ratioName).1 ≤ (scaled_size w h ratioName).1
    ∧ (get_output_size ratioName).2 ≤ (scaled_size w h ratioName).2
    ∧ ∃ s : ℚ, 0 < s
        ∧ (scaled_size w h ratioName).1 = ⌊(w : ℚ) * s⌋₊
        ∧ (scaled_size w h ratioName).2 = ⌊(h : ℚ) * s⌋₊ := by
  refine ⟨?_, (scaled_size_covers w h ratioName hw hh).1,
      (scaled_size_covers w h ratioName hw hh).2,
      scaled_size_uniform w h ratioName hw hh⟩
  unfold resize_for_ratio
  simp

/-- Witness for C2 at a concrete 640×480 source and the `"1x1"` ratio. -/
theorem resize_for_ratio_spec_witness :
    resize_for_ratio 640 480 "1x1" = get_output_size "1x1"
    ∧ (get_output_size "1x1").1 ≤ (scaled_size 640 480 "1x1").1
    ∧ (get_output_size "1x1").2 ≤ (scaled_size 640 480 "1x1").2
    ∧ ∃ s : ℚ, 0 < s
        ∧ (scaled_size 640 480 "1x1").1 = ⌊((640 : ℕ) : ℚ) * s⌋₊
        ∧ (scaled_size 640 480 "1x1").2 = ⌊((480 : ℕ) : ℚ) * s⌋₊ :=
  resize_for_ratio_spec 640 480 "1x1" (by decide) (by decide)

theorem goodLine_singleton (width : String → Nat) (maxW : Nat) (w : String) :
    goodLine width maxW [w] := by
  by_cases hw : width w ≤ maxW
  · exact Or.inl hw
  · exact Or.inr ⟨w, rfl, lt_of_not_le hw⟩

theorem wrap_foldl_inv (width : String → Nat) (maxW : Nat) :
    ∀ (ws : List String) (st : List (List String) × List String),
      (∀ l ∈ st.1, goodLine width maxW l) →
      (st.2.length ≤ 1 ∨ width (joinSp st.2) ≤ maxW) →
      (∀ l ∈ (ws.foldl (wrap_step width maxW) st).1, goodLine width maxW l)
      ∧ ((ws.foldl (wrap_step width maxW) st).2.length ≤ 1
          ∨ width (joinSp (ws.foldl (wrap_step width maxW) st).2) ≤ maxW) := by
  intro ws
  induction ws with
  | nil => intro st h1 h2; exact ⟨h1, h2⟩
  | cons w rest ih =>
    intro st h1 h2
    simp only [List.foldl_cons]
    apply ih
    · intro l hl
      unfold wrap_step at hl
      split at hl
      · exact h1 l hl
      · next hfail =>
          split at hl
          · next hcur =>
              rcases List.mem_append.1 hl with hold | hnew
              · exact h1 l hold
              · have hl1 : l = [w] := by simpa using hnew
                subst hl1
                refine Or.inr ⟨w, rfl, ?_⟩
                have : joinSp (st.2 ++ [w]) = w := by rw [hcur]; rfl
                rw [this] at hfail
                exact lt_of_not_le hfail
          · next c cs hcur =>
              rcases List.mem_append.1 hl with hold | hnew
              · exact h1 l hold
              · have hl1 : l = st.2 := by simpa using hnew
                subst hl1
                rcases h2 with hlen | hwid
                · rw [hcur] at hlen ⊢
                  have hlen' : cs.length + 1 ≤ 1 := by simpa using hlen
                  have hcs : cs = [] := List.length_eq_zero.1 (by omega)
                  subst hcs
                  exact goodLine_singleton width maxW c
                · exact Or.inl hwid
    · unfold wrap_step
      split
      · next hok => exact Or.inr hok
      · split
        · left; simp
        · left; simp

/-- C6: every line produced by the word-wrap inside `add_text_overlay` either
has rendered width at most the configured limit (85% of the image width in
the code) or is a single word that is itself wider than the limit, placed
alone on its own line; in particular no multi-word line exceeds the limit.
The font-dependent measuring function is arbitrary. -/
theorem add_text_overlay_wrap_width (width : String → Nat) (maxW : Nat) (text : String) :
    (∀ l ∈ wrap_lines width maxW (pySplit text), goodLine width maxW l)
    ∧ (∀ l ∈ wrap_lines width maxW (pySplit text),
        2 ≤ l.length → width (joinSp l) ≤ maxW) := by
  have hinv := wrap_foldl_inv width maxW (pySplit text) ([], [])
    (by intro l hl; cases hl) (Or.inl (by simp))
  have hgood : ∀ l ∈ wrap_lines width maxW (pySplit text), goodLine width maxW l := by
    intro l hl
    simp only [wrap_lines] at hl
    split at hl
    · exact hinv.1 l hl
    · next c cs hcur =>
        rcases List.mem_append.1 hl with hold | hnew
        · exact hinv.1 l hold
        · have hl1 : l = (List.foldl (wrap_step width maxW) ([], []) (pySplit text)).2 := by
            simpa using hnew
          subst hl1
          rcases hinv.2 with hlen | hwid
          · rw [hcur] at hlen ⊢
            have hlen' : cs.length + 1 ≤ 1 := by simpa using hlen
            have hcs : cs = [] := List.length_eq_zero.1 (by omega)
            subst hcs
            exact goodLine_singleton width maxW c
          · exact Or.inl hwid
  refine ⟨hgood, ?_⟩
  intro l hl h2
  rcases hgood l hl with hle | ⟨w, hw, _⟩
  · exact hle
  · subst hw; simp at h2

/-- Witness for C6: with `String.length` as the measure and limit 5, the long
word `"aaaaaaa"` lands alone on an over-wide line and the two-word line
`"bb cc"` stays within the limit. -/
theorem add_text_overlay_wrap_width_witness :
    (["aaaaaaa"] ∈ wrap_lines String.length 5 (pySplit "aaaaaaa bb cc"))
    ∧ goodLine String.length 5 ["aaaaaaa"]
    ∧ (["bb", "cc"] ∈ wrap_lines String.length 5 (pySplit "aaaaaaa bb cc"))
    ∧ String.length (joinSp ["bb", "cc"]) ≤ 5 :=
  ⟨by decide,
   (add_text_overlay_wrap_width String.length 5 "aaaaaaa bb cc").1 ["aaaaaaa"] (by decide),
   by decide,
   (add_text_overlay_wrap_width String.length 5 "aaaaaaa bb cc").2 ["bb", "cc"]
     (by decide) (by decide)⟩

theorem wrap_foldl_flatten (width : String → Nat) (maxW : Nat) :
    ∀ (ws : List String) (st : List (List String) × List String),
      (ws.foldl (wrap_step width maxW) st).1.flatten
          ++ (ws.foldl (wrap_step width maxW) st).2
        = st.1.flatten ++ st.2 ++ ws := by
  intro ws
  induction ws with
  | nil => intro st; simp
  | cons w rest ih =>
    intro st
    simp only [List.foldl_cons]
    rw [ih (wrap_step width maxW st w)]
    unfold wrap_step
    split
    · simp
    · split
      · next hcur => simp [hcur]
      · next c cs hcur => simp [hcur]

/-- C10: the word-wrap inside `add_text_overlay` preserves the words of the
text: flattening the produced lines (in order) gives back exactly the
whitespace-split word sequence of the input — nothing dropped, duplicated or
reordered. -/
theorem wrap_lines_preserve_words (width : String → Nat) (maxW : Nat) (text : String) :
    (wrap_lines width maxW (pySplit text)).flatten = pySplit text := by
  simp only [wrap_lines]
  have h := wrap_foldl_flatten width maxW (pySplit text) ([], [])
  simp only [List.flatten_nil, List.nil_append] at h
  split
  · next hcur =>
      rw [hcur] at h
      simpa using h
  · next c cs hcur =>
      simp only [List.flatten_append, List.flatten_cons, List.flatten_nil, List.append_nil]
      exact h

theorem overlay_xy_bounds (w h bgW bgH : Nat) (pos : String) :
    20 ≤ (overlay_xy w h bgW bgH pos).1
    ∧ 20 ≤ (overlay_xy w h bgW bgH pos).2
    ∧ (bgW + 40 ≤ w → (overlay_xy w h bgW bgH pos).1 + bgW ≤ (w : Int) - 20)
    ∧ (bgH + 40 ≤ h → (overlay_xy w h bgW bgH pos).2 + bgH ≤ (h : Int) - 20) := by
  simp only [overlay_xy]
  refine ⟨by omega, by omega, fun hfit => by omega, fun hfit => by omega⟩

/-- C7 counterexample: on a 100×100 image with the measure `String.length`
and the text `"hello world foo"`, the panel is 75 wide; the clamp forces
`x = 20`, so the right edge of the panel sits at 95, closer than 20px to the
image's right edge.  The claim as stated (all four margins always ≥ 20px) is
false. -/
theorem add_text_overlay_box_margin_counterexample :
    ¬ (20 ≤ (add_text_overlay_box String.length 100 100 "hello world foo" "bottom").1.1
       ∧ 20 ≤ (add_text_overlay_box String.length 100 100 "hello world foo" "bottom").1.2
       ∧ (add_text_overlay_box String.length 100 100 "hello world foo" "bottom").1.1
           + ((add_text_overlay_box String.length 100 100 "hello world foo" "bottom").2.1 : Int)
           ≤ ((100 : ℕ) : Int) - 20
       ∧ (add_text_overlay_box String.length 100 100 "hello world foo" "bottom").1.2
           + ((add_text_overlay_box String.length 100 100 "hello world foo" "bottom").2.2 : Int)
           ≤ ((100 : ℕ) : Int) - 20) := by
  decide

/-- C7 (amended): the clamp guarantees the top-left corner margins
unconditionally (`x ≥ 20`, `y ≥ 20`); the bottom-right margins
(`x + bgW ≤ W − 20`, `y + bgH ≤ H − 20`) hold whenever the panel fits inside
the 20px margins, i.e. `bgW + 40 ≤ W` resp. `bgH + 40 ≤ H`; a panel larger
than that cannot respect both opposite edges and the clamp then pins the
top-left corner at 20. -/
theorem add_text_overlay_box_clamp (width : String → Nat) (w h : Nat)
    (text position : String) :
    20 ≤ (add_text_overlay_box width w h text position).1.1
    ∧ 20 ≤ (add_text_overlay_box width w h text position).1.2
    ∧ ((add_text_overlay_box width w h text position).2.1 + 40 ≤ w →
        (add_text_overlay_box width w h text position).1.1
          + ((add_text_overlay_box width w h text position).2.1 : Int) ≤ (w : Int) - 20)
    ∧ ((add_text_overlay_box width w h text position).2.2 + 40 ≤ h →
        (add_text_overlay_box width w h text position).1.2
          + ((add_text_overlay_box width w h text position).2.2 : Int) ≤ (h : Int) - 20) := by
  simp only [add_text_overlay_box]
  exact overlay_xy_bounds w h (bg_size width w h text).1 (bg_size width w h text).2 position

/-- Witness for C7 (amended) on a 1000×1000 image where the panel fits. -/
theorem add_text_overlay_box_clamp_witness :
    20 ≤ (add_text_overlay_box String.length 1000 1000 "hi" "bottom").1.1
    ∧ 20 ≤ (add_text_overlay_box String.length 1000 1000 "hi" "bottom").1.2
    ∧ (add_text_overlay_box String.length 1000 1000 "hi" "bottom").1.1
        + ((add_text_overlay_box String.length 1000 1000 "hi" "bottom").2.1 : Int)
        ≤ ((1000 : ℕ) : Int) - 20
    ∧ (add_text_overlay_box String.length 1000 1000 "hi" "bottom").1.2
        + ((add_text_overlay_box String.length 1000 1000 "hi" "bottom").2.2 : Int)
        ≤ ((1000 : ℕ) : Int) - 20 :=
  ⟨(add_text_overlay_box_clamp String.length 1000 1000 "hi" "bottom").1,
   (add_text_overlay_box_clamp String.length 1000 1000 "hi" "bottom").2.1,
   (add_text_overlay_box_clamp String.length 1000 1000 "hi" "bottom").2.2.1 (by decide),
   (add_text_overlay_box_clamp String.length 1000 1000 "hi" "bottom").2.2.2 (by decide)⟩

theorem srgb_channel_nonneg (c : ℝ) (hc : 0 ≤ c) : 0 ≤ srgb_channel c := by
  unfold srgb_channel
  split
  · positivity
  · positivity

theorem luminance_nonneg (c : Nat × Nat × Nat) : 0 ≤ luminance c := by
  unfold luminance
  have h1 := srgb_channel_nonneg ((c.1 : ℝ) / 255) (by positivity)
  have h2 := srgb_channel_nonneg ((c.2.1 : ℝ) / 255) (by positivity)
  have h3 := srgb_channel_nonneg ((c.2.2 : ℝ) / 255) (by positivity)
  nlinarith

theorem srgb_channel_one : srgb_channel 1 = 1 := by
  unfold srgb_channel
  rw [if_neg (by norm_num)]
  rw [show ((1 : ℝ) + 0.055) / 1.055 = 1 by norm_num, Real.one_rpow]

theorem srgb_channel_zero : srgb_channel 0 = 0 := by
  unfold srgb_channel
  rw [if_pos (by norm_num)]
  norm_num

theorem luminance_white : luminance (255, 255, 255) = 1 := by
  unfold luminance
  rw [show (((255, 255, 255) : Nat × Nat × Nat).1 : ℝ) / 255 = 1 by norm_num]
  rw [srgb_channel_one]
  norm_num

theorem luminance_black : luminance (0, 0, 0) = 0 := by
  unfold luminance
  rw [show (((0, 0, 0) : Nat × Nat × Nat).1 : ℝ) / 255 = 0 by norm_num]
  rw [srgb_channel_zero]
  norm_num

theorem contrast_ratio_comm (a b : Nat × Nat × Nat) :
    contrast_ratio a b = contrast_ratio b a := by
  unfold contrast_ratio
  rcases lt_trichotomy (luminance a) (luminance b) with hab | hab | hab
  · rw [if_neg (not_lt.mpr hab.le), if_pos hab]
  · rw [if_neg (not_lt.mpr hab.le), if_neg (not_lt.mpr hab.ge), hab]
  · rw [if_pos hab, if_neg (not_lt.mpr hab.le)]

theorem one_le_contrast_ratio (a b : Nat × Nat × Nat) :
    1 ≤ contrast_ratio a b := by
  have ha := luminance_nonneg a
  have hb := luminance_nonneg b
  unfold contrast_ratio
  split
  · next hgt =>
      rw [le_div_iff₀ (by linarith)]
      linarith
  · next hle =>
      have hle' : luminance a ≤ luminance b := not_lt.mp hle
      rw [le_div_iff₀ (by linarith)]
      linarith

theorem contrast_white_black : contrast_ratio (255, 255, 255) (0, 0, 0) = 21 := by
  unfold contrast_ratio
  rw [luminance_white, luminance_black]
  rw [if_pos (by norm_num : (0 : ℝ) < 1)]
  norm_num

/-- C8: `check_text_contrast` computes the WCAG ratio
`(L_lighter + 0.05) / (L_darker + 0.05)` from the sRGB-linearized relative
luminance; the ratio is symmetric in the two colors, always at least 1,
exactly 21 for white against black, and the result passes AA iff the ratio is
at least 4.5 and AAA iff at least 7.0.  (The float `** 2.4` is modelled with
exact real arithmetic; the `ratio` field's rounding to two decimals is not
modelled — `passes_aa`/`passes_aaa` compare the un-rounded ratio, as the code
does.) -/
theorem check_text_contrast_spec (a b : Nat × Nat × Nat) :
    contrast_ratio a b = contrast_ratio b a
    ∧ 1 ≤ contrast_ratio a b
    ∧ (passes_aa a b ↔ 4.5 ≤ contrast_ratio a b)
    ∧ (passes_aaa a b ↔ 7.0 ≤ contrast_ratio a b)
    ∧ contrast_ratio (255, 255, 255) (0, 0, 0) = 21 :=
  ⟨contrast_ratio_comm a b, one_le_contrast_ratio a b, Iff.rfl, Iff.rfl,
   contrast_white_black⟩

/-- C9: when no logo was loaded at construction (`self.logo is None`, covering
a missing path, a nonexistent file, or a load error), `add_logo_overlay`
returns its input image unchanged, pixel for pixel; and in every case —
logo or not — the input image buffer is left unmodified, because the code
pastes onto `image.copy()`.  The second component of the embedding is the
input buffer after the call. -/
theorem add_logo_overlay_noop (logo : Option PILImage) (image : PILImage)
    (position : String) :
    (add_logo_overlay logo image position).2 = image
    ∧ (logo = none → (add_logo_overlay logo image position).1 = image) := by
  cases logo with
  | none => exact ⟨rfl, fun _ => rfl⟩
  | some lg => exact ⟨rfl, fun hc => Option.noConfusion hc⟩

/-- Witness for C9 on a concrete 1×1 image with no logo configured. -/
theorem add_logo_overlay_noop_witness :
    (add_logo_overlay none ⟨1, 1, [[(5, 6, 7, 255)]]⟩ "top-right").2
        = (⟨1, 1, [[(5, 6, 7, 255)]]⟩ : PILImage)
    ∧ (add_logo_overlay none ⟨1, 1, [[(5, 6, 7, 255)]]⟩ "top-right").1
        = (⟨1, 1, [[(5, 6, 7, 255)]]⟩ : PILImage) :=
  ⟨(add_logo_overlay_noop none ⟨1, 1, [[(5, 6, 7, 255)]]⟩ "top-right").1,
   (add_logo_overlay_noop none ⟨1, 1, [[(5, 6, 7, 255)]]⟩ "top-right").2 rfl⟩

end CreativePipeline
